import Mathlib

/-!
# A verification development for the proxytools proxy-pool library

This file gives a shallow embedding, in Lean 4, of the parts of the
`proxytools` code base that govern the proxy data model (`models.py`),
the pool's selection and health-state operations (`proxylist.py`),
the brokered session's outcome classification (`requests.py`) and the
superproxy gateway's error translation (`superproxy.py`), together
with theorems settling the behavioural claims made about that code.

Modelling conventions:

* Instants (Python `datetime` values, always naive UTC in this code
  base) are modelled as whole seconds since an arbitrary epoch (`Int`) —
  the resolution of the snapshot format's `%Y-%m-%dT%H:%M:%SZ`
  timestamps.  Durations in seconds and speeds in kB/s are integers as
  well; the claims settled here only compare and add these quantities,
  so the sub-second/fractional parts carried by Python's floats and
  `datetime`s do not affect any of them.
* At that resolution `to_isoformat` encodes an instant injectively as
  the ISO string and `from_isoformat` decodes it, so the embedding
  represents the serialised timestamp by the instant itself.
* Python `set` fields are modelled as lists; statements about them are
  made up to membership where the order could differ.
* Python `dict`s (insertion ordered) are association lists.
* Operations that can raise (`assert`, `TypeError` from comparing
  `None` with a number, `KeyError` from an enum lookup) return
  `Option`/have a `none` result for the raising case.
* Python code mutates `Proxy` objects in place, and the pool's maps
  hold references to those same objects; the embedding passes records
  explicitly and mirrors the aliasing by rewriting the map entry bound
  to the record's `addr` (helper `aliasUpdate`), under the standing
  assumption that a record passed to a pool operation is the object
  stored under its `addr` whenever that `addr` is registered.
-/

namespace ProxyTools

/-- `models.TYPE`: the proxy protocol kinds. -/
inductive PTYPE where
  | HTTP
  | HTTPS
  | SOCKS4
  | SOCKS5
deriving DecidableEq, Repr

/-- `models.SOCKS_TYPES` -/
def SOCKS_TYPES : List PTYPE := [PTYPE.SOCKS4, PTYPE.SOCKS5]

/-- `models.HTTP_TYPES` -/
def HTTP_TYPES : List PTYPE := [PTYPE.HTTP, PTYPE.HTTPS]

/-- `models.ANONYMITY` -/
inductive ANONYMITY where
  | HIGH
  | ANONYMOUS
  | TRANSPARENT
deriving DecidableEq, Repr

/-- `models.PROXY_RESULT_TYPE`: the kind tag of a history entry. -/
inductive PROXY_RESULT_TYPE where
  | FAIL
  | SUCCESS
  | REST
deriving DecidableEq, Repr

/-- One history entry: the Python list `[time, result_type, reason, request_ident]`
    prepended by `Proxy.set_history`. -/
structure HistoryEntry where
  time : Int
  result : PROXY_RESULT_TYPE
  reason : Option String
  request_ident : Option String
deriving DecidableEq, Repr

/-- The `models.Proxy` record (its `__slots__`). -/
structure Proxy where
  addr : String
  types : List PTYPE
  anonymity : Option ANONYMITY
  country : Option String
  speed : Option Int
  fetch_at : Option Int
  fetch_sources : List String
  success_at : Option Int
  fail_at : Option Int
  fail : Nat
  in_use : Int
  rest_till : Option Int
  blacklist : Bool
  history : Option (List HistoryEntry)
deriving DecidableEq, Repr

/-- `Proxy.url` (models.py 71-78): socks5 wins, then socks4, else http. -/
def Proxy.url (p : Proxy) : String :=
  if PTYPE.SOCKS5 ∈ p.types then "socks5://" ++ p.addr
  else if PTYPE.SOCKS4 ∈ p.types then "socks4://" ++ p.addr
  else "http://" ++ p.addr

/-- `Proxy.used_at` (models.py 98-103): `fail_at` when it is set and not
    earlier than `success_at`, otherwise `success_at or fail_at`. -/
def Proxy.used_at (p : Proxy) : Option Int :=
  match p.fail_at, p.success_at with
  | some f, none => some f
  | some f, some s => if f ≥ s then some f else some s
  | none, s => s

/-- `Proxy.set_rest_till` (models.py 105-107): monotonic advance. -/
def Proxy.set_rest_till (p : Proxy) (t : Int) : Proxy :=
  match p.rest_till with
  | none => { p with rest_till := some t }
  | some r => if r < t then { p with rest_till := some t } else p

/-- `Proxy.set_history` (models.py 109-111): prepend and truncate to
    `max_history` entries (the Python slice `[:max_history]`). -/
def Proxy.set_history (p : Proxy) (time : Int) (result : PROXY_RESULT_TYPE)
    (reason request_ident : Option String) (max_history : Nat) : Proxy :=
  let entries := HistoryEntry.mk time result reason request_ident :: p.history.getD []
  { p with history := some (entries.take max_history) }

/-! ## JSON serialisation (models.py `to_json` / `from_json`) -/

/-- Python `str.upper()` (the enum member names are plain ASCII). -/
def pyUpper (s : String) : String := String.mk (s.data.map Char.toUpper)

/-- Python `TYPE.name`. -/
def PTYPE.name : PTYPE → String
  | .HTTP => "HTTP"
  | .HTTPS => "HTTPS"
  | .SOCKS4 => "SOCKS4"
  | .SOCKS5 => "SOCKS5"

/-- Python `TYPE[s]`: enum lookup by member name; `KeyError` is `none`. -/
def PTYPE.ofName : String → Option PTYPE
  | "HTTP" => some .HTTP
  | "HTTPS" => some .HTTPS
  | "SOCKS4" => some .SOCKS4
  | "SOCKS5" => some .SOCKS5
  | _ => none

/-- Python `ANONYMITY.name`. -/
def ANONYMITY.name : ANONYMITY → String
  | .HIGH => "HIGH"
  | .ANONYMOUS => "ANONYMOUS"
  | .TRANSPARENT => "TRANSPARENT"

/-- Python `ANONYMITY[s]`. -/
def ANONYMITY.ofName : String → Option ANONYMITY
  | "HIGH" => some .HIGH
  | "ANONYMOUS" => some .ANONYMOUS
  | "TRANSPARENT" => some .TRANSPARENT
  | _ => none

/-- Python `PROXY_RESULT_TYPE.name`. -/
def PROXY_RESULT_TYPE.name : PROXY_RESULT_TYPE → String
  | .FAIL => "FAIL"
  | .SUCCESS => "SUCCESS"
  | .REST => "REST"

/-- Python `PROXY_RESULT_TYPE[s]`. -/
def PROXY_RESULT_TYPE.ofName : String → Option PROXY_RESULT_TYPE
  | "FAIL" => some .FAIL
  | "SUCCESS" => some .SUCCESS
  | "REST" => some .REST
  | _ => none

/-- `utils.to_isoformat`: at whole-second resolution the
    `%Y-%m-%dT%H:%M:%SZ` string determines, and is determined by, the
    instant, so the embedding keeps the instant itself. -/
def to_isoformat (t : Int) : Int := t

/-- `utils.from_isoformat`: the inverse parse of the same format. -/
def from_isoformat (n : Int) : Int := n

/-- A serialised history entry `(iso_time, result_name, reason, request_ident)`. -/
structure HistoryJson where
  time : Int
  result : String
  reason : Option String
  request_ident : Option String
deriving DecidableEq, Repr

/-- The JSON object produced by `Proxy.to_json` (models.py 133-149).
    Note that `in_use` is NOT among the serialised keys. -/
structure ProxyJson where
  addr : String
  types : List String
  anonymity : Option String
  country : Option String
  speed : Option Int
  fetch_at : Option Int
  fetch_sources : List String
  success_at : Option Int
  fail_at : Option Int
  fail : Nat
  rest_till : Option Int
  blacklist : Bool
  history : Option (List HistoryJson)
deriving DecidableEq, Repr

/-- `Proxy.to_json` (models.py 133-149).  `self.history and [...] or None`
    maps an empty (or absent) history to JSON `null`. -/
def Proxy.to_json (p : Proxy) : ProxyJson :=
  { addr := p.addr
    types := p.types.map PTYPE.name
    anonymity := p.anonymity.map ANONYMITY.name
    country := p.country
    speed := p.speed
    fetch_at := p.fetch_at.map to_isoformat
    fetch_sources := p.fetch_sources
    success_at := p.success_at.map to_isoformat
    fail_at := p.fail_at.map to_isoformat
    fail := p.fail
    rest_till := p.rest_till.map to_isoformat
    blacklist := p.blacklist
    history :=
      match p.history with
      | none => none
      | some [] => none
      | some l => some (l.map fun h =>
          HistoryJson.mk (to_isoformat h.time) h.result.name h.reason h.request_ident) }

/-- `Proxy.__init__` (models.py 41-60) on already-decoded field values:
    asserts that `types` does not mix the HTTP and SOCKS families
    (`AssertionError` is `none`), and forces `anonymity = HIGH` whenever
    `HTTP` is not among the types. -/
def Proxy.init (addr : String) (types : List PTYPE) (anonymity : Option ANONYMITY)
    (country : Option String) (speed : Option Int) (fetch_at : Option Int)
    (fetch_sources : List String) (success_at fail_at : Option Int) (fail : Nat)
    (in_use : Int) (rest_till : Option Int) (blacklist : Bool)
    (history : Option (List HistoryEntry)) : Option Proxy :=
  if types.any (· ∈ SOCKS_TYPES) ∧ types.any (· ∈ HTTP_TYPES) then none
  else some
    { addr := addr
      types := types
      anonymity := if PTYPE.HTTP ∈ types then anonymity else some .HIGH
      country := country
      speed := speed
      fetch_at := fetch_at
      fetch_sources := fetch_sources
      success_at := success_at
      fail_at := fail_at
      fail := fail
      in_use := in_use
      rest_till := rest_till
      blacklist := blacklist
      history := history }

/-- `Proxy.from_json` (models.py 151-167): decode timestamps, enum names
    (types and anonymity are looked up after `.upper()`), history entries,
    then run `Proxy.__init__`.  The JSON has no `in_use` key, so `__init__`
    uses its default `in_use=0`; likewise `history=[]` decodes to a record
    with `history = []`. -/
def Proxy.from_json (j : ProxyJson) : Option Proxy := do
  let types ← j.types.mapM (fun s => PTYPE.ofName (pyUpper s))
  let anonymity ← match j.anonymity with
    | none => pure (none : Option ANONYMITY)
    | some s => (ANONYMITY.ofName (pyUpper s)).map some
  let history ← match j.history with
    | none => pure (none : Option (List HistoryEntry))
    | some l => (l.mapM fun h =>
        (PROXY_RESULT_TYPE.ofName h.result).map fun r =>
          HistoryEntry.mk (from_isoformat h.time) r h.reason h.request_ident).map some
  Proxy.init j.addr types anonymity j.country j.speed
    (j.fetch_at.map from_isoformat) j.fetch_sources
    (j.success_at.map from_isoformat) (j.fail_at.map from_isoformat)
    j.fail 0 (j.rest_till.map from_isoformat) j.blacklist history

/-! ## The pool (proxylist.py `ProxyList`) -/

/-- The `ProxyList.__init__` configuration knobs used by the modelled
    operations (proxylist.py 28-41, 54-56). -/
structure ProxyListConfig where
  min_size : Nat := 50
  max_fail : Nat := 3
  max_simultaneous : Int := 2
  success_timeout : Int := 0
  fail_timeout : Int := 0
  history : Nat := 0
  update_timeout : Int := 1800
  recheck_timeout : Int := 10800
  blacklist_timeout : Int := 86400
  pool_manager_timeout : Int := 60
deriving DecidableEq, Repr

/-- The mutable `ProxyList` state: the two addr-keyed ordered maps, the
    keys (proxy URLs) of `proxy_pool_manager`, the `maybe_update` debounce
    stamp, and the observable status of the optional fetcher.  The
    `proxy_ready` event / rest-timer greenlets are concurrency machinery
    with no map state and are not modelled. -/
structure ProxyListState where
  active_proxies : List (String × Proxy)
  blacklist_proxies : List (String × Proxy)
  proxy_pool_manager : List String
  updated_at : Option Int
  hasFetcher : Bool
  fetcherReady : Bool
deriving DecidableEq, Repr

/-- Python `mapping.get(a)` / `a in mapping` on an addr-keyed map. -/
def assocFind (a : String) (m : List (String × Proxy)) : Option Proxy :=
  (m.find? (fun aq => aq.1 == a)).map (·.2)

/-- Python `mapping[a] = p`: replace in place if the key exists, else append
    (insertion-ordered dict assignment). -/
def assocSet : List (String × Proxy) → String → Proxy → List (String × Proxy)
  | [], a, p => [(a, p)]
  | aq :: rest, a, p => if aq.1 = a then (a, p) :: rest else aq :: assocSet rest a p

/-- Python `if a in mapping: del mapping[a]`. -/
def assocErase (m : List (String × Proxy)) (a : String) : List (String × Proxy) :=
  m.filter (fun aq => !(aq.1 == a))

/-- In-place mutation of a `Proxy` object is visible through any map entry
    bound to its `addr` (the maps hold references to the same object). -/
def aliasUpdate (m : List (String × Proxy)) (p : Proxy) : List (String × Proxy) :=
  m.map (fun aq => if aq.1 = p.addr then (aq.1, p) else aq)

/-- Both pool maps, refreshed for an in-place mutation of `p`. -/
def ProxyListState.alias (st : ProxyListState) (p : Proxy) : ProxyListState :=
  { st with active_proxies := aliasUpdate st.active_proxies p
            blacklist_proxies := aliasUpdate st.blacklist_proxies p }

/-- `ProxyList.in_use` (proxylist.py 290-292): total concurrent uses. -/
def ProxyListState.totalInUse (st : ProxyListState) : Int :=
  (st.active_proxies.map (·.2.in_use)).sum

/-- The blacklist-timeout block of `ProxyList.maybe_update` (proxylist.py
    164-170): with a non-zero `blacklist_timeout`, delete the blacklisted
    entries whose `used_at` lies more than `blacklist_timeout` seconds in
    the past.  `now - p.used_at` raises `TypeError` (modelled as `none`)
    when `p.used_at` is `None`. -/
def blacklistSweep (blacklist_timeout : Int) (now : Int)
    (bl : List (String × Proxy)) : Option (List (String × Proxy)) :=
  if blacklist_timeout ≠ 0 then
    if bl.any (fun aq => aq.2.used_at.isNone) then none
    else some (bl.filter (fun aq => !(decide (now - aq.2.used_at.getD 0 > blacklist_timeout))))
  else some bl

/-- The per-proxy condition of the `clear_pool_manager` arm of the
    recheck/clear loop (proxylist.py 155-162): the proxy is idle and its
    `used_at` is more than `pool_manager_timeout` seconds old (an absent
    `used_at` counts as `0` via `(delta or 0)`). -/
def clearPoolCondition (cfg : ProxyListConfig) (now : Int) (p : Proxy) : Bool :=
  p.in_use = 0 ∧ cfg.pool_manager_timeout ≠ 0 ∧
    (p.used_at.map (fun u => now - u)).getD 0 > cfg.pool_manager_timeout

/-- `ProxyList.maybe_update` (proxylist.py 143-175), restricted to its
    effects on the modelled state: debounced by `update_timeout`; spawning
    the fetcher and the recheck list only schedule asynchronous work, while
    the recheck/clear loop deletes stale `proxy_pool_manager` entries and
    the blacklist sweep drops stale blacklist entries (possibly raising,
    see `blacklistSweep`). -/
def ProxyList.maybe_update (cfg : ProxyListConfig) (st : ProxyListState)
    (now : Int) : Option ProxyListState :=
  if st.updated_at = none ∨ now - st.updated_at.getD 0 > cfg.update_timeout then
    match blacklistSweep cfg.blacklist_timeout now st.blacklist_proxies with
    | none => none
    | some bl =>
      some { st with updated_at := some now
                     proxy_pool_manager := st.proxy_pool_manager.filter (fun url =>
                       !(st.active_proxies.any
                         (fun aq => aq.2.url == url ∧ clearPoolCondition cfg now aq.2)))
                     blacklist_proxies := bl }
  else some st

/-- `ProxyList.blacklist` (proxylist.py 233-241): set the flag, move the
    record from `active_proxies` to `blacklist_proxies`, drop its
    connection pool, and (unless loading) run `maybe_update`. -/
def ProxyList.blacklistOp (cfg : ProxyListConfig) (st : ProxyListState)
    (p : Proxy) (now : Int) (load : Bool := false) : Option (Proxy × ProxyListState) :=
  let p1 := { p with blacklist := true }
  let st1 := { st with
    active_proxies := assocErase st.active_proxies p1.addr
    blacklist_proxies := assocSet st.blacklist_proxies p1.addr p1
    proxy_pool_manager := st.proxy_pool_manager.filter (fun url => !(url == p1.url)) }
  if load then some (p1, st1)
  else (ProxyList.maybe_update cfg st1 now).map (fun st2 => (p1, st2))

/-- `ProxyList.unblacklist` (proxylist.py 250-256): clear the flag, remove
    from the blacklist map, re-insert into `active_proxies` if absent. -/
def ProxyList.unblacklistOp (st : ProxyListState) (p : Proxy) : Proxy × ProxyListState :=
  let p1 := { p with blacklist := false }
  let st1 := { st with blacklist_proxies := assocErase st.blacklist_proxies p1.addr }
  if (assocFind p1.addr st1.active_proxies).isSome then
    (p1, { st1 with active_proxies := aliasUpdate st1.active_proxies p1 })
  else
    (p1, { st1 with active_proxies := st1.active_proxies ++ [(p1.addr, p1)] })

/-- The `if self.history: proxy.set_history(...)` step shared by the three
    outcome operations. -/
def withHistory (cfg : ProxyListConfig) (q : Proxy) (result : PROXY_RESULT_TYPE)
    (reason request_ident : Option String) (now : Int) : Proxy :=
  if cfg.history ≠ 0 then q.set_history now result reason request_ident cfg.history else q

/-- `ProxyList.fail` (proxylist.py 207-231).  Mutates the record
    unconditionally (`fail_at`, `fail`, `in_use`, optionally history); the
    `assert proxy.in_use >= 0` raising is `none`.  Only when the record's
    `addr` is in `active_proxies` does it blacklist (on reaching
    `max_fail`) or advance `rest_till` by the effective fail timeout. -/
def ProxyList.failOp (cfg : ProxyListConfig) (st : ProxyListState) (p : Proxy)
    (timeout : Option Int) (reason request_ident : Option String)
    (now : Int) : Option (Proxy × ProxyListState) :=
  let p1 := { p with fail_at := some now, fail := p.fail + 1, in_use := p.in_use - 1 }
  if p1.in_use < 0 then none
  else
    let p2 := withHistory cfg p1 .FAIL reason request_ident now
    if (assocFind p2.addr st.active_proxies).isSome then
      if p2.fail ≥ cfg.max_fail then
        ProxyList.blacklistOp cfg (st.alias p2) p2 now
      else
        let t := timeout.getD cfg.fail_timeout
        if t ≠ 0 then
          let p3 := p2.set_rest_till (now + t)
          some (p3, (st.alias p3))
        else some (p2, (st.alias p2))
    else some (p2, (st.alias p2))

/-- `ProxyList.success` (proxylist.py 258-273).  No registration check at
    all: sets `success_at`, resets `fail`, decrements `in_use` (assert as
    `none`), records history, and advances `rest_till` by the effective
    success timeout when non-zero. -/
def ProxyList.successOp (cfg : ProxyListConfig) (st : ProxyListState) (p : Proxy)
    (timeout : Option Int) (reason request_ident : Option String)
    (now : Int) : Option (Proxy × ProxyListState) :=
  let p1 := { p with success_at := some now, fail := 0, in_use := p.in_use - 1 }
  if p1.in_use < 0 then none
  else
    let p2 := withHistory cfg p1 .SUCCESS reason request_ident now
    let t := timeout.getD cfg.success_timeout
    let p3 := if t ≠ 0 then p2.set_rest_till (now + t) else p2
    some (p3, (st.alias p3))

/-- `ProxyList.rest` (proxylist.py 275-288): like success, but always
    forces `rest_till` forward by the mandatory `timeout` (the rest period),
    recording a `REST` history entry. -/
def ProxyList.restOp (cfg : ProxyListConfig) (st : ProxyListState) (p : Proxy)
    (timeout : Int) (reason request_ident : Option String)
    (now : Int) : Option (Proxy × ProxyListState) :=
  let p1 := { p with success_at := some now, fail := 0, in_use := p.in_use - 1 }
  if p1.in_use < 0 then none
  else
    let p2 := p1.set_rest_till (now + timeout)
    let p3 := withHistory cfg p2 .REST reason request_ident now
    some (p3, (st.alias p3))

/-! ## Selection (proxylist.py `get_ready_proxies` / `get`) -/

/-- The keyword filters of `ProxyList.get_ready_proxies` (proxylist.py
    294-295).  In Python, `countries=None` and `countries=[]` behave
    identically (`not countries`), so the absent filter is the empty list;
    `min_speed=None` and `min_speed=0` are likewise both falsy, kept
    apart here only to mirror the source's default. -/
structure GetParams where
  exclude : List String := []
  countries : List String := []
  countries_exclude : List String := []
  min_speed : Option Int := none
deriving DecidableEq, Repr

/-- `(not p.rest_till or p.rest_till < now)` -/
def restOk (now : Int) (p : Proxy) : Bool :=
  match p.rest_till with
  | none => true
  | some r => decide (r < now)

/-- `(not countries or p.country in countries)`; `None in countries` is `False`. -/
def countriesOk (countries : List String) (p : Proxy) : Bool :=
  decide (countries = []) || (match p.country with
    | some c => decide (c ∈ countries)
    | none => false)

/-- `(not countries_exclude or p.country not in countries_exclude)` -/
def countriesExcludeOk (countries_exclude : List String) (p : Proxy) : Bool :=
  decide (countries_exclude = []) || (match p.country with
    | some c => decide (c ∉ countries_exclude)
    | none => true)

/-- `(not min_speed or p.speed >= min_speed)`: with the filter active,
    comparing `None >= float` raises `TypeError` (`none`); `min_speed`
    values `None` and `0` are both falsy and disable the filter. -/
def minSpeedCheck (min_speed : Option Int) (speed : Option Int) : Option Bool :=
  match min_speed with
  | none => some true
  | some m =>
    if m = 0 then some true
    else match speed with
      | some s => some (decide (s ≥ m))
      | none => none

/-- The whole eligibility conjunction for one `active_proxies` entry
    (proxylist.py 300-305); Python's `and` short-circuits, so the
    `TypeError` of the `min_speed` clause only fires when every earlier
    clause held. -/
def readyCheck (cfg : ProxyListConfig) (ps : GetParams) (now : Int)
    (addr : String) (p : Proxy) : Option Bool :=
  if p.in_use < cfg.max_simultaneous ∧ addr ∉ ps.exclude ∧ restOk now p ∧
     countriesOk ps.countries p ∧ countriesExcludeOk ps.countries_exclude p then
    minSpeedCheck ps.min_speed p.speed
  else some false

/-- `ProxyList.get_ready_proxies` (proxylist.py 294-306): the dict
    comprehension over `active_proxies`, aborted by the first raising
    entry. -/
def get_ready_proxies (cfg : ProxyListConfig) (ps : GetParams) (now : Int) :
    List (String × Proxy) → Option (List (String × Proxy))
  | [] => some []
  | aq :: rest =>
    match readyCheck cfg ps now aq.1 aq.2, get_ready_proxies cfg ps now rest with
    | some b, some l => some (if b then aq :: l else l)
    | _, _ => none

/-- `ProxyList._get_random` (proxylist.py 368-372): `random.choice` over
    the dict values, with the random draw supplied as an oracle index `k`;
    the empty dict's `IndexError` is caught and becomes `None`. -/
def ProxyList.getRandomStrategy (k : Nat) (proxies : List (String × Proxy)) : Option Proxy :=
  if h : proxies.length = 0 then none
  else some (proxies.get ⟨k % proxies.length, Nat.mod_lt _ (Nat.pos_of_ne_zero h)⟩).2

/-- The sort key of `ProxyList._get_fastest` (proxylist.py 376):
    `p.speed or 0 / (p.in_use + 1)`, which by Python precedence is
    `p.speed or (0 / (p.in_use + 1))` — the raw speed when it is set and
    non-zero, `0` otherwise. -/
def fastestKey (p : Proxy) : Int :=
  match p.speed with
  | some s => if s ≠ 0 then s else 0 / ((p.in_use : Int) + 1)
  | none => 0 / ((p.in_use : Int) + 1)

/-- One step of scanning the dict values for the first element attaining
    the maximal `fastestKey` (a strict-improvement scan keeps the earliest
    maximum, exactly the head of Python's stable descending sort). -/
def fastestStep (best : Option Proxy) (q : Proxy) : Option Proxy :=
  match best with
  | none => some q
  | some b => if fastestKey q > fastestKey b then some q else best

/-- `ProxyList._get_fastest` (proxylist.py 374-377): the first element of
    the values stably sorted by `fastestKey` descending, i.e. the earliest
    value attaining the maximal key; `None` on an empty dict (the `for`
    loop body never runs). -/
def ProxyList.getFastestStrategy (proxies : List (String × Proxy)) : Option Proxy :=
  (proxies.map (·.2)).foldl fastestStep none

/-- The two members of `GET_STRATEGY`; `RANDOM` carries its random draw. -/
inductive Strategy where
  | RANDOM (k : Nat)
  | FASTEST
deriving DecidableEq, Repr

def applyStrategy : Strategy → List (String × Proxy) → Option Proxy
  | .RANDOM k, l => ProxyList.getRandomStrategy k l
  | .FASTEST, l => ProxyList.getFastestStrategy l

/-- The `wait` parameter of `ProxyList.get`: `True`, `False`, or a number
    of seconds.  `WaitParam.isFalsy` is Python's `not wait` (`0` seconds is
    falsy). -/
inductive WaitParam where
  | wTrue
  | wFalse
  | secs (s : Int)
deriving DecidableEq, Repr

def WaitParam.isFalsy : WaitParam → Bool
  | .wTrue => false
  | .wFalse => true
  | .secs s => s = 0

/-- The observable outcome of one pass of `ProxyList.get` (proxylist.py
    308-366) at the instant `now`:
    * `got p st` — a proxy was chosen, its `in_use` incremented, and
      returned;
    * `insufficient` — `InsufficientProxies` was raised;
    * `wouldWait` — the call registered in `waiting` and blocked on the
      `proxy_ready` event (the retry loop re-runs the same selection at a
      later instant, so a proxy eventually returned by a waiting call is
      still produced by a pass that ends in `got`);
    * `typeError` — a `TypeError` escaped from `get_ready_proxies` or
      `maybe_update`. -/
inductive GetOutcome where
  | got (p : Proxy) (st : ProxyListState)
  | insufficient
  | wouldWait
  | typeError
deriving DecidableEq, Repr

/-- One pass of `ProxyList.get` (proxylist.py 308-366): the no-proxy/no-
    fetcher bail-out, the `maybe_update` call, the ready snapshot, then —
    when the snapshot is non-empty — the `persist` lookup followed by the
    strategy, incrementing the winner's `in_use`; on an empty snapshot,
    raise when `wait` is falsy or the pool is idle with an idle fetcher,
    otherwise block.  A falsy `persist` (`None`/`False`/`''`) is `none`. -/
def ProxyList.get (cfg : ProxyListConfig) (st : ProxyListState) (strategy : Strategy)
    (persist : Option String) (wait : WaitParam) (ps : GetParams) (now : Int) : GetOutcome :=
  if st.active_proxies.length = 0 ∧ st.hasFetcher = false then .insufficient
  else
    match ProxyList.maybe_update cfg st now with
    | none => .typeError
    | some st1 =>
      match get_ready_proxies cfg ps now st1.active_proxies with
      | none => .typeError
      | some ready =>
        if ready.length ≠ 0 then
          match persist.bind (fun a => assocFind a ready) with
          | some p =>
            let p1 := { p with in_use := p.in_use + 1 }
            .got p1 (st1.alias p1)
          | none =>
            match applyStrategy strategy ready with
            | some p =>
              let p1 := { p with in_use := p.in_use + 1 }
              .got p1 (st1.alias p1)
            | none => .insufficient
        else if wait.isFalsy ∨
            ((st1.hasFetcher = false ∨ st1.fetcherReady) ∧ st1.totalInUse = 0) then
          .insufficient
        else .wouldWait

/-! ## Brokered session (requests.py `ProxyListMixin._proxylist_request`) -/

/-- The data of an HTTP response that the classifier predicates inspect. -/
structure Resp where
  status_code : Nat
  text : String
  headers : List (String × String)
deriving DecidableEq, Repr

/-- How the retry loop disposes of a response obtained through a proxy. -/
inductive RespOutcome where
  | rest
  | success
  | fail
deriving DecidableEq, Repr

/-- The response classification of `_proxylist_request` (requests.py
    330-354): `rest_response` first; otherwise success exactly when the
    response does not match `fail_response` (or none is configured) and
    matches `success_response` (or none is configured); otherwise fail.
    An unconfigured classifier is `none`. -/
def classifyResponse (rest_response fail_response success_response : Option (Resp → Bool))
    (resp : Resp) : RespOutcome :=
  if (rest_response.map (fun f => f resp)).getD false then .rest
  else if (fail_response.map (fun f => !(f resp))).getD true &&
          (success_response.map (fun f => f resp)).getD true then .success
  else .fail

/-- `restMatches r resp` is Python's `rest_response and rest_response(resp)`. -/
def matchesConfigured (classifier : Option (Resp → Bool)) (resp : Resp) : Bool :=
  (classifier.map (fun f => f resp)).getD false

/-- The `wait` keyword actually handed to `ProxyList.get` by
    `_proxylist_request` (requests.py 287-298): the caller's `proxy_wait`
    when supplied; otherwise `setdefault('wait', False)` under
    `allow_no_proxy`, and otherwise the `ProxyList.get` signature default
    `wait=True`. -/
def effectiveWait (allow_no_proxy : Bool) (caller_wait : Option WaitParam) : WaitParam :=
  match caller_wait with
  | some w => w
  | none => if allow_no_proxy then .wFalse else .wTrue

/-- How one iteration of the `_proxylist_request` retry loop sources its
    proxy (requests.py 294-306). -/
inductive BrokerProxyChoice where
  | viaProxy (p : Proxy) (st : ProxyListState)
  | direct
  | insufficientRaised
  | blockedWait
  | typeErrorRaised
deriving DecidableEq, Repr

/-- The proxy-acquisition step of one retry-loop iteration: call
    `ProxyList.get` with the effective `wait`; on `InsufficientProxies`,
    fall through to a direct (proxyless) request iff `allow_no_proxy`. -/
def brokerSelectProxy (allow_no_proxy : Bool) (caller_wait : Option WaitParam)
    (cfg : ProxyListConfig) (st : ProxyListState) (strategy : Strategy)
    (persist : Option String) (ps : GetParams) (now : Int) : BrokerProxyChoice :=
  match ProxyList.get cfg st strategy persist (effectiveWait allow_no_proxy caller_wait) ps now with
  | .got p st1 => .viaProxy p st1
  | .insufficient => if allow_no_proxy then .direct else .insufficientRaised
  | .wouldWait => .blockedWait
  | .typeError => .typeErrorRaised

/-! ## Superproxy gateway error translation (superproxy.py / requests.py) -/

/-- The identity of a raised exception as the gateway sees it:
    `__class__.__module__`, `__class__.__qualname__`, `__class__.__name__`
    and the stringified `args`. -/
structure ExcInfo where
  modName : String
  qualname : String
  clsName : String
  args : List String
deriving DecidableEq, Repr

/-- The gateway's error reply. -/
structure GatewayErrorResp where
  status : Nat
  body : List String
  headers : List (String × String)
deriving DecidableEq, Repr

/-- The `except BaseException` branch of `WSGISuperProxy.proxy`
    (superproxy.py 467-476): status 500, JSON body
    `(module.qualname, *args)`, header `X-Superproxy-Error: __name__`. -/
def superproxyErrorResp (exc : ExcInfo) : GatewayErrorResp :=
  { status := 500
    body := (exc.modName ++ "." ++ exc.qualname) :: exc.args
    headers := [("X-Superproxy-Error", exc.clsName)] }

/-- `SuperProxySession.reraise_map` (requests.py 416-417): the class
    whitelist, keyed by `__name__`. -/
def reraiseWhitelist : List String := ["InsufficientProxies", "ProxyMaxRetriesExceeded"]

/-- What `SuperProxySession.request` does with a gateway reply
    (requests.py 449-455). -/
inductive ClientResult where
  | reraised (cls : String) (args : List String)
  | genericError (args : List String)
  | ok
deriving DecidableEq, Repr

/-- The error-reraise epilogue of `SuperProxySession.request` (requests.py
    450-455): look up `X-Superproxy-Error`; when present and whitelisted,
    re-raise that class with the JSON body's tail as arguments (the body's
    first element is skipped); when present but unknown, raise a generic
    `Exception` with the whole body. -/
def superProxyClientCheck (errHeader : Option String) (body : List String) : ClientResult :=
  match errHeader with
  | some n => if n ∈ reraiseWhitelist then .reraised n body.tail else .genericError body
  | none => .ok

/-- Header lookup on the modelled gateway reply. -/
def GatewayErrorResp.header (r : GatewayErrorResp) (k : String) : Option String :=
  (r.headers.find? (fun kv => kv.1 == k)).map (·.2)

/-! ## Spec-side definitions for refinement comparisons -/

/-- Modelled from the spec: the `FASTEST` strategy's intended selection
    metric, "max by `speed / (in_use+1)`" (spec §4.2 step 4 and the
    Strategy glossary entry: speed weighted by current load), with an
    absent speed counting as `0`. -/
def FASTEST_spec_metric (p : Proxy) : ℚ :=
  (p.speed.getD 0) / ((p.in_use : ℚ) + 1)

/-! ## Basic lemmas about the embedded operations -/

theorem assocFind_mem {a : String} {p : Proxy} {m : List (String × Proxy)}
    (h : assocFind a m = some p) : (a, p) ∈ m := by
  unfold assocFind at h
  rcases hf : m.find? (fun aq => aq.1 == a) with _ | aq <;> rw [hf] at h
  · simp at h
  · have hmem := List.mem_of_find?_eq_some hf
    have hpred := List.find?_some hf
    obtain ⟨a', p'⟩ := aq
    simp only [beq_iff_eq] at hpred
    simp only [Option.map_some', Option.some.injEq] at h
    subst hpred
    subst h
    exact hmem

theorem assocFind_eq_none {a : String} {m : List (String × Proxy)}
    (h : assocFind a m = none) : ∀ aq ∈ m, aq.1 ≠ a := by
  unfold assocFind at h
  rcases hf : m.find? (fun aq => aq.1 == a) with _ | aq
  · intro aq hm
    have := List.find?_eq_none.mp hf aq hm
    simpa using this
  · rw [hf] at h; simp at h

theorem aliasUpdate_of_no_key {m : List (String × Proxy)} {p : Proxy}
    (h : ∀ aq ∈ m, aq.1 ≠ p.addr) : aliasUpdate m p = m := by
  unfold aliasUpdate
  induction m with
  | nil => rfl
  | cons aq rest ih =>
    simp only [List.map_cons]
    rw [if_neg (h aq (by simp)), ih (fun x hx => h x (by simp [hx]))]

theorem alias_of_unregistered {st : ProxyListState} {p : Proxy}
    (ha : assocFind p.addr st.active_proxies = none)
    (hb : assocFind p.addr st.blacklist_proxies = none) : st.alias p = st := by
  unfold ProxyListState.alias
  rw [aliasUpdate_of_no_key (assocFind_eq_none ha),
      aliasUpdate_of_no_key (assocFind_eq_none hb)]

theorem assocFind_assocSet_self (m : List (String × Proxy)) (a : String) (p : Proxy) :
    assocFind a (assocSet m a p) = some p := by
  induction m with
  | nil => simp [assocSet, assocFind]
  | cons aq rest ih =>
    by_cases h : aq.1 = a
    · simp [assocSet, h, assocFind]
    · simp only [assocSet, if_neg h]
      unfold assocFind at ih ⊢
      simp only [List.find?_cons]
      rcases hbe : (aq.1 == a) with _ | _
      · exact ih
      · exact absurd (by simpa using hbe) h

theorem assocFind_filter_ne (m : List (String × Proxy)) (a : String) :
    assocFind a (m.filter (fun aq => !(aq.1 == a))) = none := by
  unfold assocFind
  have hf : (m.filter (fun aq => !(aq.1 == a))).find? (fun aq => aq.1 == a) = none := by
    rw [List.find?_eq_none]
    intro aq hm
    have := (List.mem_filter.mp hm).2
    simpa using this
  rw [hf]
  rfl

theorem assocFind_assocErase_self (m : List (String × Proxy)) (a : String) :
    assocFind a (assocErase m a) = none :=
  assocFind_filter_ne m a

theorem aliasUpdate_keys (m : List (String × Proxy)) (p : Proxy) :
    (aliasUpdate m p).map (·.1) = m.map (·.1) := by
  unfold aliasUpdate
  induction m with
  | nil => rfl
  | cons aq rest ih =>
    by_cases h : aq.1 = p.addr <;> simp [h, ih]

theorem restOk_iff {now : Int} {p : Proxy} :
    restOk now p = true ↔ (p.rest_till = none ∨ ∃ r, p.rest_till = some r ∧ r < now) := by
  unfold restOk
  rcases p.rest_till with _ | r <;> simp

theorem readyCheck_true_iff {cfg : ProxyListConfig} {ps : GetParams} {now : Int}
    {a : String} {p : Proxy} :
    readyCheck cfg ps now a p = some true ↔
      (p.in_use < cfg.max_simultaneous ∧ a ∉ ps.exclude ∧ restOk now p = true ∧
       countriesOk ps.countries p = true ∧ countriesExcludeOk ps.countries_exclude p = true ∧
       minSpeedCheck ps.min_speed p.speed = some true) := by
  unfold readyCheck
  split
  · rename_i h
    constructor
    · intro hm
      exact ⟨h.1, h.2.1, h.2.2.1, h.2.2.2.1, h.2.2.2.2, hm⟩
    · intro hc
      exact hc.2.2.2.2.2
  · rename_i h
    constructor
    · intro hm
      exact absurd hm (by decide)
    · intro hc
      exact absurd ⟨hc.1, hc.2.1, hc.2.2.1, hc.2.2.2.1, hc.2.2.2.2.1⟩ h

theorem mem_get_ready_proxies {cfg : ProxyListConfig} {ps : GetParams} {now : Int} :
    ∀ {l r : List (String × Proxy)}, get_ready_proxies cfg ps now l = some r →
      ∀ aq ∈ r, aq ∈ l ∧ readyCheck cfg ps now aq.1 aq.2 = some true := by
  intro l
  induction l with
  | nil =>
    intro r h aq hm
    simp only [get_ready_proxies, Option.some.injEq] at h
    rw [← h] at hm
    simp at hm
  | cons hd tl ih =>
    intro r h aq hm
    simp only [get_ready_proxies] at h
    rcases hc : readyCheck cfg ps now hd.1 hd.2 with _ | b <;> rw [hc] at h
    · simp at h
    · rcases hr : get_ready_proxies cfg ps now tl with _ | rest <;> rw [hr] at h
      · simp at h
      · simp only [Option.some.injEq] at h
        rw [← h] at hm
        rcases b with _ | _
        · simp only [if_neg (by decide : ¬(false = true))] at hm
          rcases ih hr aq hm with ⟨h1, h2⟩
          exact ⟨by simp [h1], h2⟩
        · simp only [if_pos rfl] at hm
          rcases List.mem_cons.mp hm with h1 | h1
          · subst h1; exact ⟨by simp, hc⟩
          · rcases ih hr aq h1 with ⟨h2, h3⟩
            exact ⟨by simp [h2], h3⟩

theorem getRandomStrategy_mem {k : Nat} {l : List (String × Proxy)} {p : Proxy}
    (h : ProxyList.getRandomStrategy k l = some p) : p ∈ l.map (·.2) := by
  unfold ProxyList.getRandomStrategy at h
  split at h
  · simp at h
  · simp only [Option.some.injEq] at h
    rw [← h]
    exact List.mem_map.mpr ⟨_, List.get_mem _ _ _, rfl⟩

theorem fastest_foldl_mem {l : List Proxy} :
    ∀ {acc : Option Proxy} {p : Proxy},
      l.foldl fastestStep acc = some p → p ∈ l ∨ acc = some p := by
  induction l with
  | nil => intro acc p h; exact Or.inr h
  | cons hd tl ih =>
    intro acc p h
    simp only [List.foldl_cons] at h
    rcases ih h with h1 | h1
    · exact Or.inl (by simp [h1])
    · rcases acc with _ | b
      · simp only [fastestStep, Option.some.injEq] at h1
        exact Or.inl (by simp [h1])
      · have hstep : fastestStep (some b) hd =
            if fastestKey hd > fastestKey b then some hd else some b := rfl
        rw [hstep] at h1
        by_cases hgt : fastestKey hd > fastestKey b
        · rw [if_pos hgt] at h1
          simp only [Option.some.injEq] at h1
          exact Or.inl (by simp [h1])
        · rw [if_neg hgt] at h1
          exact Or.inr h1

theorem getFastestStrategy_mem {l : List (String × Proxy)} {p : Proxy}
    (h : ProxyList.getFastestStrategy l = some p) : p ∈ l.map (·.2) := by
  unfold ProxyList.getFastestStrategy at h
  rcases fastest_foldl_mem h with h1 | h1
  · exact h1
  · simp at h1

theorem applyStrategy_mem {s : Strategy} {l : List (String × Proxy)} {p : Proxy}
    (h : applyStrategy s l = some p) : p ∈ l.map (·.2) := by
  cases s with
  | RANDOM k => exact getRandomStrategy_mem h
  | FASTEST => exact getFastestStrategy_mem h

theorem maybe_update_active {cfg : ProxyListConfig} {st st' : ProxyListState} {now : Int}
    (h : ProxyList.maybe_update cfg st now = some st') :
    st'.active_proxies = st.active_proxies ∧ st'.hasFetcher = st.hasFetcher ∧
      st'.fetcherReady = st.fetcherReady := by
  unfold ProxyList.maybe_update at h
  split at h
  · split at h
    · simp at h
    · simp only [Option.some.injEq] at h
      rw [← h]
      exact ⟨rfl, rfl, rfl⟩
  · simp only [Option.some.injEq] at h
    rw [← h]
    exact ⟨rfl, rfl, rfl⟩

theorem maybe_update_fresh {cfg : ProxyListConfig} {st : ProxyListState} {now u : Int}
    (hu : st.updated_at = some u) (hf : now - u ≤ cfg.update_timeout) :
    ProxyList.maybe_update cfg st now = some st := by
  unfold ProxyList.maybe_update
  rw [if_neg]
  intro hc
  rcases hc with hc | hc
  · rw [hu] at hc; simp at hc
  · rw [hu] at hc
    simp only [Option.getD_some] at hc
    omega

/-! ## Concrete records used as inputs to witnesses and counterexamples -/

/-- A plain checked HTTP proxy: speed 100 kB/s, currently used once. -/
def fastLoadedProxy : Proxy :=
  { addr := "1.1.1.1:80", types := [.HTTP], anonymity := none, country := some "US",
    speed := some 100, fetch_at := none, fetch_sources := [], success_at := none,
    fail_at := none, fail := 0, in_use := 1, rest_till := none, blacklist := false,
    history := none }

/-- A slower but idle HTTP proxy: speed 60 kB/s, not in use. -/
def slowIdleProxy : Proxy :=
  { fastLoadedProxy with addr := "2.2.2.2:80", speed := some 60, in_use := 0 }

/-- A SOCKS4-only proxy. -/
def socks4Proxy : Proxy :=
  { addr := "3.3.3.3:1080", types := [.SOCKS4], anonymity := some .HIGH, country := none,
    speed := none, fetch_at := none, fetch_sources := [], success_at := none,
    fail_at := none, fail := 0, in_use := 0, rest_till := none, blacklist := false,
    history := none }

/-- A SOCKS5 proxy. -/
def socks5Proxy : Proxy := { socks4Proxy with addr := "4.4.4.4:1080", types := [.SOCKS5] }

/-! ## C2 — the FASTEST strategy and its intended metric -/

/-- **C2** (code bug exhibit).  On the ready set
    `{fastLoadedProxy (speed 100, in_use 1), slowIdleProxy (speed 60, in_use 0)}`
    the source's `_get_fastest` picks `fastLoadedProxy`, although the
    spec metric `speed / (in_use + 1)` is strictly larger for
    `slowIdleProxy` (60 > 50): the Python key
    `p.speed or 0 / (p.in_use + 1)` parses as
    `p.speed or (0 / (p.in_use + 1))`, so the load factor is dead code
    and the sort is by raw speed. -/
theorem C2_fastest_ignores_load :
    ProxyList.getFastestStrategy
      [("1.1.1.1:80", fastLoadedProxy), ("2.2.2.2:80", slowIdleProxy)] = some fastLoadedProxy ∧
    FASTEST_spec_metric fastLoadedProxy < FASTEST_spec_metric slowIdleProxy := by
  constructor
  · decide
  · show ((100 : ℚ) / (1 + 1) : ℚ) < (60 : ℚ) / (0 + 1)
    norm_num

/-! ## C3 — response classification in the retry loop -/

/-- **C3.**  For a response obtained through a proxy: if the configured
    `rest_response` matches, the outcome is `rest`; otherwise the outcome
    is `success` iff the response does not match `fail_response` and
    `success_response` is unconfigured or matches; in particular when both
    `success_response` and `fail_response` match the same response the
    outcome is `fail`. -/
theorem C3_response_classification :
    ∀ (rest_response fail_response success_response : Option (Resp → Bool)) (resp : Resp),
      (matchesConfigured rest_response resp = true →
        classifyResponse rest_response fail_response success_response resp = .rest) ∧
      (matchesConfigured rest_response resp = false →
        (classifyResponse rest_response fail_response success_response resp = .success ↔
          (matchesConfigured fail_response resp = false ∧
            (success_response = none ∨ matchesConfigured success_response resp = true)))) ∧
      (matchesConfigured rest_response resp = false →
        matchesConfigured fail_response resp = true →
        matchesConfigured success_response resp = true →
        classifyResponse rest_response fail_response success_response resp = .fail) := by
  intro r f s resp
  refine ⟨?_, ?_, ?_⟩
  · intro h
    unfold matchesConfigured at h
    unfold classifyResponse
    rw [if_pos h]
  · intro h
    unfold matchesConfigured at h ⊢
    unfold classifyResponse
    rw [if_neg (by rw [h]; exact Bool.false_ne_true)]
    rcases f with _ | ff <;> rcases s with _ | fs
    · simp
    · rcases hfs : fs resp with _ | _ <;> simp [hfs]
    · rcases hff : ff resp with _ | _ <;> simp [hff]
    · rcases hff : ff resp with _ | _ <;> rcases hfs : fs resp with _ | _ <;> simp [hff, hfs]
  · intro h hf hs
    unfold matchesConfigured at h hf hs
    unfold classifyResponse
    rw [if_neg (by rw [h]; exact Bool.false_ne_true)]
    rcases f with _ | ff
    · simp at hf
    · rcases s with _ | fs
      · simp at hs
      · simp only [Option.map_some', Option.getD_some] at hf hs
        simp [hf, hs]

/-- The classifiers of scenario (c): a rate-limit rest matcher that does
    not match, a fail matcher on status 503 and a success matcher on the
    body text, both matching the same reply. -/
def restOn429 : Option (Resp → Bool) := some (fun resp => resp.status_code == 429)

def failOn503 : Option (Resp → Bool) := some (fun resp => resp.status_code == 503)

def successOnOkText : Option (Resp → Bool) := some (fun resp => resp.text == "OK")

def resp503ok : Resp := { status_code := 503, text := "OK", headers := [] }

/-- Witness for C3: both `fail_response` and `success_response` match
    `resp503ok`, and the classification is `fail`. -/
theorem C3_witness : classifyResponse restOn429 failOn503 successOnOkText resp503ok = .fail :=
  (C3_response_classification restOn429 failOn503 successOnOkText resp503ok).2.2
    (by decide) (by decide) (by decide)

/-! ## C6 — the derived proxy URL -/

/-- **C6** (counterexample).  A proxy whose only type is SOCKS4 renders
    `socks4://addr`, not `socks5://addr` as the claim states. -/
theorem C6_counterexample :
    socks4Proxy.types = [PTYPE.SOCKS4] ∧
    socks4Proxy.url = "socks4://3.3.3.3:1080" ∧
    socks4Proxy.url ≠ "socks5://" ++ socks4Proxy.addr := by
  refine ⟨rfl, rfl, ?_⟩
  decide

/-- **C6** (amended).  The derived url is `scheme://addr` where the scheme
    is `socks5` whenever SOCKS5 is among the types, `socks4` when SOCKS4 is
    present without SOCKS5, and `http` otherwise (the HTTP family). -/
theorem C6_url_scheme :
    ∀ p : Proxy,
      (PTYPE.SOCKS5 ∈ p.types → p.url = "socks5://" ++ p.addr) ∧
      (PTYPE.SOCKS5 ∉ p.types → PTYPE.SOCKS4 ∈ p.types → p.url = "socks4://" ++ p.addr) ∧
      (PTYPE.SOCKS5 ∉ p.types → PTYPE.SOCKS4 ∉ p.types → p.url = "http://" ++ p.addr) := by
  intro p
  unfold Proxy.url
  refine ⟨?_, ?_, ?_⟩
  · intro h
    rw [if_pos h]
  · intro h5 h4
    rw [if_neg h5, if_pos h4]
  · intro h5 h4
    rw [if_neg h5, if_neg h4]

/-- Witness for C6: a SOCKS5 proxy renders `socks5://addr`. -/
theorem C6_witness : socks5Proxy.url = "socks5://" ++ socks5Proxy.addr :=
  (C6_url_scheme socks5Proxy).1 (by decide)

/-! ## C9 — gateway error translation and client-side re-raise -/

/-- The `InsufficientProxies` exception as the gateway sees it: its
    `__module__` is `proxytools.exceptions`, so the JSON body's first
    element is the dotted path, which differs from `__name__`. -/
def insufficientExc : ExcInfo :=
  { modName := "proxytools.exceptions", qualname := "InsufficientProxies",
    clsName := "InsufficientProxies", args := ["No ready proxies"] }

/-- **C9** (counterexample).  The body's first element is the
    module-qualified class path, not the bare class name that the
    `X-Superproxy-Error` header carries. -/
theorem C9_counterexample :
    (superproxyErrorResp insufficientExc).body.head? =
      some "proxytools.exceptions.InsufficientProxies" ∧
    (superproxyErrorResp insufficientExc).header "X-Superproxy-Error" =
      some "InsufficientProxies" ∧
    (superproxyErrorResp insufficientExc).body.head? ≠
      some insufficientExc.clsName := by
  refine ⟨rfl, rfl, ?_⟩
  decide

/-- **C9** (amended).  For every exception escaping the brokered session,
    the gateway responds 500 with a JSON array whose first element is the
    module-qualified class path followed by the stringified arguments, and
    the header `X-Superproxy-Error` set to the bare class name; the client
    side re-raises whitelisted classes (`InsufficientProxies`,
    `ProxyMaxRetriesExceeded`) from the header name with the body's tail
    as arguments, so callers observe the same exception class and
    arguments. -/
theorem C9_gateway_error_contract :
    ∀ exc : ExcInfo,
      (superproxyErrorResp exc).status = 500 ∧
      (superproxyErrorResp exc).body = (exc.modName ++ "." ++ exc.qualname) :: exc.args ∧
      (superproxyErrorResp exc).header "X-Superproxy-Error" = some exc.clsName ∧
      (exc.clsName ∈ reraiseWhitelist →
        superProxyClientCheck ((superproxyErrorResp exc).header "X-Superproxy-Error")
          (superproxyErrorResp exc).body = .reraised exc.clsName exc.args) := by
  intro exc
  refine ⟨rfl, rfl, ?_, ?_⟩
  · unfold superproxyErrorResp GatewayErrorResp.header
    simp
  · intro h
    unfold superproxyErrorResp GatewayErrorResp.header superProxyClientCheck
    simp only [List.find?_cons_of_pos, beq_self_eq_true, Option.map_some']
    rw [if_pos h]
    rfl

/-- Witness for C9: the client re-raises `InsufficientProxies` with the
    original argument list. -/
theorem C9_witness :
    superProxyClientCheck
      ((superproxyErrorResp insufficientExc).header "X-Superproxy-Error")
      (superproxyErrorResp insufficientExc).body =
      .reraised "InsufficientProxies" ["No ready proxies"] :=
  (C9_gateway_error_contract insufficientExc).2.2.2 (by decide)

/-! ## C10 — allow_no_proxy defaults the pool wait off -/

/-- **C10.**  With `allow_no_proxy` enabled and no caller-supplied
    `proxy_wait`, the effective `wait` handed to `ProxyList.get` is
    `False`, and on an empty ready snapshot the selection raises
    `InsufficientProxies` at once — never blocking — so the retry-loop
    iteration falls through to a direct, proxyless request. -/
theorem C10_allow_no_proxy_no_wait :
    ∀ (cfg : ProxyListConfig) (st : ProxyListState) (strat : Strategy)
      (persist : Option String) (ps : GetParams) (now : Int) (st1 : ProxyListState),
      ProxyList.maybe_update cfg st now = some st1 →
      get_ready_proxies cfg ps now st1.active_proxies = some [] →
      effectiveWait true none = .wFalse ∧
      brokerSelectProxy true none cfg st strat persist ps now = .direct := by
  intro cfg st strat persist ps now st1 hmu hready
  refine ⟨rfl, ?_⟩
  have hget : ProxyList.get cfg st strat persist (effectiveWait true none) ps now =
      .insufficient := by
    unfold ProxyList.get
    by_cases h0 : st.active_proxies.length = 0 ∧ st.hasFetcher = false
    · rw [if_pos h0]
    · rw [if_neg h0]
      simp [hmu, hready, effectiveWait, WaitParam.isFalsy]
  unfold brokerSelectProxy
  rw [hget]
  rfl

/-- A pool whose single active proxy has exhausted `max_simultaneous`,
    so the ready snapshot is empty, with a fresh debounce stamp. -/
def saturatedState : ProxyListState :=
  { active_proxies := [("1.1.1.1:80", { fastLoadedProxy with in_use := 2 })],
    blacklist_proxies := [], proxy_pool_manager := [], updated_at := some 0,
    hasFetcher := false, fetcherReady := true }

/-- Witness for C10 at the saturated pool. -/
theorem C10_witness :
    effectiveWait true none = .wFalse ∧
    brokerSelectProxy true none {} saturatedState .FASTEST none {} 100 = .direct :=
  C10_allow_no_proxy_no_wait {} saturatedState .FASTEST none {} 100 saturatedState
    (by decide) (by decide)

/-! ## C8 — the blacklist-timeout sweep of maybe_update -/

/-- A blacklisted proxy whose last failure is far past `blacklist_timeout`. -/
def staleBlacklisted : Proxy :=
  { fastLoadedProxy with addr := "5.5.5.5:80", fail_at := some 0, in_use := 0,
                         blacklist := true }

/-- A blacklisted proxy used recently. -/
def freshBlacklisted : Proxy :=
  { staleBlacklisted with addr := "6.6.6.6:80", fail_at := some 99000 }

/-- A blacklisted proxy that was never used: both `success_at` and
    `fail_at` are absent, so `used_at` is `None`. -/
def neverUsedBlacklisted : Proxy :=
  { staleBlacklisted with addr := "9.9.9.9:80", fail_at := none }

/-- A pool (debounce due at `now = 100000`) whose blacklist holds one
    stale and one fresh entry. -/
def sweepState : ProxyListState :=
  { active_proxies := [], proxy_pool_manager := [], updated_at := some 0,
    hasFetcher := false, fetcherReady := true,
    blacklist_proxies :=
      [("5.5.5.5:80", staleBlacklisted), ("6.6.6.6:80", freshBlacklisted)] }

/-- The same pool with a never-used blacklisted entry. -/
def sweepCrashState : ProxyListState :=
  { sweepState with blacklist_proxies := [("9.9.9.9:80", neverUsedBlacklisted)] }

/-- **C8** (code bug exhibit).  With the default `blacklist_timeout` of
    86400 s, the sweep of `maybe_update` at `now = 100000` deletes exactly
    the entries whose `used_at` is older than the timeout (the stale entry
    goes, the fresh one stays); but on a blacklisted record with no
    `used_at` the sweep evaluates `now - None` and raises `TypeError`
    (modelled `none`) instead of leaving the record in place as the claim
    and spec state. -/
theorem C8_sweep_behaviour :
    ProxyList.maybe_update {} sweepState 100000 =
      some { sweepState with updated_at := some 100000,
                             blacklist_proxies := [("6.6.6.6:80", freshBlacklisted)] } ∧
    neverUsedBlacklisted.used_at = none ∧
    ProxyList.maybe_update {} sweepCrashState 100000 = none := by
  refine ⟨by decide, rfl, by decide⟩

/-! ## C5 — the JSON round trip of a Proxy record -/

theorem ptype_roundtrip (t : PTYPE) : PTYPE.ofName (pyUpper t.name) = some t := by
  cases t <;> rfl

theorem anonymity_roundtrip (a : ANONYMITY) : ANONYMITY.ofName (pyUpper a.name) = some a := by
  cases a <;> rfl

theorem prt_roundtrip (r : PROXY_RESULT_TYPE) : PROXY_RESULT_TYPE.ofName r.name = some r := by
  cases r <;> rfl

theorem types_mapM_roundtrip (l : List PTYPE) :
    (l.map PTYPE.name).mapM (fun s => PTYPE.ofName (pyUpper s)) = some l := by
  induction l with
  | nil => rfl
  | cons t ts ih =>
    rw [List.map_cons, List.mapM_cons, ptype_roundtrip t, ih]
    rfl

theorem history_mapM_roundtrip (l : List HistoryEntry) :
    (l.map (fun h => HistoryJson.mk (to_isoformat h.time) h.result.name h.reason h.request_ident)).mapM
      (fun h => (PROXY_RESULT_TYPE.ofName h.result).map fun r =>
        HistoryEntry.mk (from_isoformat h.time) r h.reason h.request_ident) = some l := by
  induction l with
  | nil => rfl
  | cons e es ih =>
    rw [List.map_cons, List.mapM_cons]
    simp only [prt_roundtrip, Option.map_some']
    rw [ih]
    rfl

theorem iso_map_id (x : Option Int) :
    Option.map from_isoformat (Option.map to_isoformat x) = x := by
  cases x <;> rfl

/-- A fully populated record with `in_use = 1` used to exercise the
    serialisation round trip. -/
def roundTripSample : Proxy :=
  { addr := "7.7.7.7:80", types := [.HTTP, .HTTPS], anonymity := some .TRANSPARENT,
    country := some "UA", speed := some 15, fetch_at := some 10,
    fetch_sources := ["hidester"], success_at := some 20, fail_at := some 30,
    fail := 2, in_use := 1, rest_till := some 40, blacklist := false,
    history := some [⟨30, .FAIL, some "503 error", none⟩] }

/-- **C5** (counterexample).  `to_json` has no `in_use` key, so the round
    trip reloads `in_use` as the constructor default `0`: a record in use
    (`in_use = 1`) does not round-trip to an equivalent record on the
    `in_use` attribute. -/
theorem C5_counterexample :
    (Proxy.from_json (Proxy.to_json roundTripSample)).map Proxy.in_use = some 0 ∧
    roundTripSample.in_use = 1 := ⟨by decide, rfl⟩

/-- **C5** (amended).  For every valid Proxy record `p` — one observing the
    constructor invariants (no mixed HTTP/SOCKS families; anonymity forced
    HIGH for non-HTTP proxies) and with a history that is absent or
    non-empty — `Proxy.from_json (Proxy.to_json p)` succeeds and returns a
    record equal to `p` on every attribute of the data model except
    `in_use`, which reloads as `0`. -/
theorem C5_roundtrip :
    ∀ p : Proxy,
      ¬(p.types.any (· ∈ SOCKS_TYPES) = true ∧ p.types.any (· ∈ HTTP_TYPES) = true) →
      (PTYPE.HTTP ∉ p.types → p.anonymity = some .HIGH) →
      p.history ≠ some [] →
      Proxy.from_json (Proxy.to_json p) = some { p with in_use := 0 } := by
  intro p h1 h2 h3
  rcases p with ⟨addr, types, anon, country, speed, fetch_at, fs, succ_at, fail_at, fl, iu, rest, bl, hist⟩
  simp only at h1 h2 h3
  unfold Proxy.to_json Proxy.from_json Proxy.init
  simp only [types_mapM_roundtrip, Option.bind_eq_bind, Option.some_bind]
  rcases anon with _ | a <;> rcases hist with _ | hl
  · simp only [Option.map_none', Option.pure_def, Option.some_bind, Option.map_some']
    rw [if_neg h1]
    simp only [Option.some.injEq, Proxy.mk.injEq, iso_map_id]
    by_cases hH : PTYPE.HTTP ∈ types
    · simp [hH]
    · exact absurd (h2 hH) (by simp)
  · rcases hl with _ | ⟨e, es⟩
    · exact absurd rfl h3
    · simp only [Option.map_none', Option.pure_def, Option.some_bind, Option.map_some',
        history_mapM_roundtrip]
      rw [if_neg h1]
      simp only [Option.some.injEq, Proxy.mk.injEq, iso_map_id]
      by_cases hH : PTYPE.HTTP ∈ types
      · simp [hH]
      · exact absurd (h2 hH) (by simp)
  · simp only [Option.map_none', Option.map_some', Option.pure_def, Option.some_bind,
      anonymity_roundtrip]
    rw [if_neg h1]
    simp only [Option.some.injEq, Proxy.mk.injEq, iso_map_id]
    by_cases hH : PTYPE.HTTP ∈ types
    · simp [hH]
    · rw [h2 hH]
      simp [if_neg hH]
  · rcases hl with _ | ⟨e, es⟩
    · exact absurd rfl h3
    · simp only [Option.map_none', Option.map_some', Option.pure_def, Option.some_bind,
        anonymity_roundtrip, history_mapM_roundtrip]
      rw [if_neg h1]
      simp only [Option.some.injEq, Proxy.mk.injEq, iso_map_id]
      by_cases hH : PTYPE.HTTP ∈ types
      · simp [hH]
      · rw [h2 hH]
        simp [if_neg hH]

/-- Witness for C5 at `roundTripSample`. -/
theorem C5_witness :
    Proxy.from_json (Proxy.to_json roundTripSample) =
      some { roundTripSample with in_use := 0 } :=
  C5_roundtrip roundTripSample (by decide) (by decide) (by decide)

/-! ## C7 / C4 — pool mutation operations -/

theorem set_rest_till_preserves (p : Proxy) (t : Int) :
    (p.set_rest_till t).addr = p.addr ∧ (p.set_rest_till t).fail = p.fail ∧
    (p.set_rest_till t).fail_at = p.fail_at ∧ (p.set_rest_till t).in_use = p.in_use ∧
    (p.set_rest_till t).success_at = p.success_at ∧ (p.set_rest_till t).blacklist = p.blacklist := by
  unfold Proxy.set_rest_till
  rcases p.rest_till with _ | r
  · exact ⟨rfl, rfl, rfl, rfl, rfl, rfl⟩
  · dsimp only
    split <;> exact ⟨rfl, rfl, rfl, rfl, rfl, rfl⟩

theorem set_rest_till_sets (p : Proxy) (t : Int)
    (h : ∀ r, p.rest_till = some r → r < t) : (p.set_rest_till t).rest_till = some t := by
  unfold Proxy.set_rest_till
  rcases hr : p.rest_till with _ | r
  · rfl
  · dsimp only
    rw [if_pos (h r hr)]

theorem withHistory_preserves (cfg : ProxyListConfig) (q : Proxy)
    (result : PROXY_RESULT_TYPE) (reason ident : Option String) (now : Int) :
    (withHistory cfg q result reason ident now).addr = q.addr ∧
    (withHistory cfg q result reason ident now).fail = q.fail ∧
    (withHistory cfg q result reason ident now).fail_at = q.fail_at ∧
    (withHistory cfg q result reason ident now).in_use = q.in_use ∧
    (withHistory cfg q result reason ident now).success_at = q.success_at ∧
    (withHistory cfg q result reason ident now).rest_till = q.rest_till ∧
    (withHistory cfg q result reason ident now).blacklist = q.blacklist := by
  unfold withHistory
  split <;> exact ⟨rfl, rfl, rfl, rfl, rfl, rfl, rfl⟩

theorem assocFind_append_self {m : List (String × Proxy)} {a : String} (p : Proxy)
    (h : assocFind a m = none) : assocFind a (m ++ [(a, p)]) = some p := by
  induction m with
  | nil => simp [assocFind]
  | cons aq rest ih =>
    unfold assocFind at h ih ⊢
    rcases hbe : (aq.1 == a) with _ | _
    · simp only [List.cons_append, List.find?_cons, hbe] at h ⊢
      exact ih h
    · simp only [List.find?_cons, hbe] at h
      simp at h

/-- A pool with no registered proxies and a fresh debounce stamp. -/
def emptyPoolState : ProxyListState :=
  { active_proxies := [], blacklist_proxies := [], proxy_pool_manager := [],
    updated_at := some 0, hasFetcher := false, fetcherReady := true }

/-- A record whose addr is registered nowhere. -/
def unregProxy : Proxy := { fastLoadedProxy with addr := "8.8.8.8:80" }

/-- **C7** (counterexample).  `ProxyList.fail` on a record whose addr is
    not registered in the pool still mutates the record (`fail_at`, `fail`,
    `in_use`) — it is not a no-op on the record, only the pool maps are
    left unchanged. -/
theorem C7_counterexample :
    ProxyList.failOp {} emptyPoolState unregProxy none none none 100 =
      some ({ unregProxy with fail_at := some 100, fail := 1, in_use := 0 },
        emptyPoolState) ∧
    ({ unregProxy with fail_at := some 100, fail := 1, in_use := 0 } : Proxy) ≠
      unregProxy := by
  refine ⟨by decide, by decide⟩

/-- **C7** (amended).  Pool mutation operations do not raise on records
    with `in_use ≥ 1`; on a record whose addr is registered in neither
    map, `fail`, `success` and `rest` return with the pool state unchanged
    while still mutating the record itself (failure/success stamps,
    counters, `in_use`); `blacklist` (under a fresh debounce stamp, which
    keeps its trailing `maybe_update` from running the sweep) and
    `unblacklist` accept any record and register/unregister it as a
    blacklisted or active entry. -/
theorem ite_set_rest_till_preserves (c : Prop) [Decidable c] (q : Proxy) (x : Int) :
    ((if c then q.set_rest_till x else q).addr = q.addr) ∧
    ((if c then q.set_rest_till x else q).fail = q.fail) ∧
    ((if c then q.set_rest_till x else q).fail_at = q.fail_at) ∧
    ((if c then q.set_rest_till x else q).in_use = q.in_use) ∧
    ((if c then q.set_rest_till x else q).success_at = q.success_at) ∧
    ((if c then q.set_rest_till x else q).blacklist = q.blacklist) := by
  split
  · have h := set_rest_till_preserves q x
    exact ⟨h.1, h.2.1, h.2.2.1, h.2.2.2.1, h.2.2.2.2.1, h.2.2.2.2.2⟩
  · exact ⟨rfl, rfl, rfl, rfl, rfl, rfl⟩

theorem C7_unregistered_ops :
    ∀ (cfg : ProxyListConfig) (st : ProxyListState) (p : Proxy)
      (t : Option Int) (rt : Int) (reason ident : Option String) (now : Int),
      1 ≤ p.in_use →
      assocFind p.addr st.active_proxies = none →
      assocFind p.addr st.blacklist_proxies = none →
      (∃ p', ProxyList.failOp cfg st p t reason ident now = some (p', st) ∧
        p'.fail = p.fail + 1 ∧ p'.fail_at = some now ∧ p'.in_use = p.in_use - 1) ∧
      (∃ p', ProxyList.successOp cfg st p t reason ident now = some (p', st) ∧
        p'.fail = 0 ∧ p'.success_at = some now ∧ p'.in_use = p.in_use - 1) ∧
      (∃ p', ProxyList.restOp cfg st p rt reason ident now = some (p', st) ∧
        p'.fail = 0 ∧ p'.success_at = some now ∧ p'.in_use = p.in_use - 1) ∧
      (∀ u, st.updated_at = some u → now - u ≤ cfg.update_timeout →
        ∃ p' st2, ProxyList.blacklistOp cfg st p now = some (p', st2) ∧
          p'.blacklist = true ∧ assocFind p.addr st2.blacklist_proxies = some p') ∧
      (∃ p' st2, ProxyList.unblacklistOp st p = (p', st2) ∧
        p'.blacklist = false ∧ assocFind p.addr st2.active_proxies = some p') := by
  intro cfg st p t rt reason ident now hin ha hb
  have hin' : ¬((p.in_use - 1 : Int) < 0) := by omega
  refine ⟨?_, ?_, ?_, ?_, ?_⟩
  · unfold ProxyList.failOp
    rw [if_neg hin']
    have hwp := withHistory_preserves cfg
      { p with fail_at := some now, fail := p.fail + 1, in_use := p.in_use - 1 }
      .FAIL reason ident now
    refine ⟨withHistory cfg
      { p with fail_at := some now, fail := p.fail + 1, in_use := p.in_use - 1 }
      .FAIL reason ident now, ?_, hwp.2.1, hwp.2.2.1, hwp.2.2.2.1⟩
    dsimp only
    rw [hwp.1]
    dsimp only
    rw [ha]
    simp only [Option.isSome_none, Bool.false_eq_true, if_false]
    rw [alias_of_unregistered (by rw [hwp.1]; exact ha) (by rw [hwp.1]; exact hb)]
  · unfold ProxyList.successOp
    rw [if_neg hin']
    have hwp := withHistory_preserves cfg
      { p with success_at := some now, fail := 0, in_use := p.in_use - 1 }
      .SUCCESS reason ident now
    have hq3 := ite_set_rest_till_preserves (t.getD cfg.success_timeout ≠ 0)
      (withHistory cfg { p with success_at := some now, fail := 0, in_use := p.in_use - 1 }
        .SUCCESS reason ident now)
      (now + t.getD cfg.success_timeout)
    refine ⟨_, ?_, by rw [hq3.2.1, hwp.2.1], by rw [hq3.2.2.2.2.1, hwp.2.2.2.2.1],
      by rw [hq3.2.2.2.1, hwp.2.2.2.1]⟩
    dsimp only
    rw [alias_of_unregistered (by rw [hq3.1, hwp.1]; exact ha)
      (by rw [hq3.1, hwp.1]; exact hb)]
  · unfold ProxyList.restOp
    rw [if_neg hin']
    have hsr := set_rest_till_preserves
      { p with success_at := some now, fail := 0, in_use := p.in_use - 1 } (now + rt)
    have hwp := withHistory_preserves cfg
      (({ p with success_at := some now, fail := 0, in_use := p.in_use - 1 } : Proxy).set_rest_till (now + rt))
      .REST reason ident now
    refine ⟨_, ?_, by rw [hwp.2.1, hsr.2.1], by rw [hwp.2.2.2.2.1, hsr.2.2.2.2.1],
      by rw [hwp.2.2.2.1, hsr.2.2.2.1]⟩
    dsimp only
    rw [alias_of_unregistered (by rw [hwp.1, hsr.1]; exact ha)
      (by rw [hwp.1, hsr.1]; exact hb)]
  · intro u hu hf
    unfold ProxyList.blacklistOp
    dsimp only
    rw [maybe_update_fresh (by exact hu) hf]
    refine ⟨{ p with blacklist := true }, _, rfl, rfl, ?_⟩
    dsimp only
    exact assocFind_assocSet_self _ _ _
  · unfold ProxyList.unblacklistOp
    dsimp only
    rw [ha]
    simp only [Option.isSome_none, Bool.false_eq_true, if_false]
    refine ⟨{ p with blacklist := false }, _, rfl, rfl, ?_⟩
    dsimp only
    exact assocFind_append_self _ ha

/-- Witness for C7 at `unregProxy` over the empty pool. -/
theorem C7_witness :
    (∃ p', ProxyList.failOp {} emptyPoolState unregProxy none none none 100 =
        some (p', emptyPoolState) ∧
      p'.fail = unregProxy.fail + 1 ∧ p'.fail_at = some 100 ∧
      p'.in_use = unregProxy.in_use - 1) ∧
    (∃ p', ProxyList.successOp {} emptyPoolState unregProxy none none none 100 =
        some (p', emptyPoolState) ∧
      p'.fail = 0 ∧ p'.success_at = some 100 ∧ p'.in_use = unregProxy.in_use - 1) ∧
    (∃ p', ProxyList.restOp {} emptyPoolState unregProxy 60 none none 100 =
        some (p', emptyPoolState) ∧
      p'.fail = 0 ∧ p'.success_at = some 100 ∧ p'.in_use = unregProxy.in_use - 1) ∧
    (∀ u, emptyPoolState.updated_at = some u → 100 - u ≤ ({} : ProxyListConfig).update_timeout →
      ∃ p' st2, ProxyList.blacklistOp {} emptyPoolState unregProxy 100 = some (p', st2) ∧
        p'.blacklist = true ∧ assocFind unregProxy.addr st2.blacklist_proxies = some p') ∧
    (∃ p' st2, ProxyList.unblacklistOp emptyPoolState unregProxy = (p', st2) ∧
      p'.blacklist = false ∧ assocFind unregProxy.addr st2.active_proxies = some p') :=
  C7_unregistered_ops {} emptyPoolState unregProxy none 60 none none 100
    (by decide) (by decide) (by decide)

/-- A registered proxy one failure away from `max_fail`. -/
def maxFailProxy : Proxy := { fastLoadedProxy with fail := 2 }

/-- **C4** (counterexample).  A `fail` call whose incremented counter
    reaches `max_fail = 3` does NOT move the proxy to the blacklist when
    the record's addr is not in the active map: the call returns with the
    record not blacklisted and the pool's (empty) blacklist map unchanged. -/
theorem C4_counterexample :
    ProxyList.failOp {} emptyPoolState maxFailProxy none none none 100 =
      some ({ maxFailProxy with fail_at := some 100, fail := 3, in_use := 0 },
        emptyPoolState) ∧
    ({} : ProxyListConfig).max_fail ≤ 3 ∧
    ({ maxFailProxy with fail_at := some 100, fail := 3, in_use := 0 } : Proxy).blacklist
      = false ∧
    emptyPoolState.blacklist_proxies = [] := by
  refine ⟨by decide, by decide, rfl, rfl⟩

/-- **C4** (amended).  Every `ProxyList.fail` call that passes the
    `in_use` assertion (`in_use ≥ 1` beforehand; debounce stamp fresh so
    the trailing `maybe_update` of a blacklisting is the identity) sets
    `fail_at = now`, increments `fail`, and decrements `in_use`; and
    provided the record's addr is registered in the active map: if the
    incremented counter reaches `max_fail` the call moves the proxy to the
    blacklist, otherwise a non-zero effective timeout advances `rest_till`
    to `fail_at + timeout` (when not already later). -/
theorem C4_fail_semantics :
    ∀ (cfg : ProxyListConfig) (st : ProxyListState) (p : Proxy) (t : Option Int)
      (reason ident : Option String) (now u : Int),
      1 ≤ p.in_use →
      st.updated_at = some u → now - u ≤ cfg.update_timeout →
      ∃ pr : Proxy × ProxyListState,
        ProxyList.failOp cfg st p t reason ident now = some pr ∧
        pr.1.fail_at = some now ∧ pr.1.fail = p.fail + 1 ∧ pr.1.in_use = p.in_use - 1 ∧
        ((assocFind p.addr st.active_proxies).isSome = true →
          (cfg.max_fail ≤ p.fail + 1 →
            pr.1.blacklist = true ∧
            assocFind p.addr pr.2.active_proxies = none ∧
            assocFind p.addr pr.2.blacklist_proxies = some pr.1) ∧
          (p.fail + 1 < cfg.max_fail → t.getD cfg.fail_timeout ≠ 0 →
            (∀ r, p.rest_till = some r → r < now + t.getD cfg.fail_timeout) →
            pr.1.rest_till = some (now + t.getD cfg.fail_timeout))) := by
  intro cfg st p t reason ident now u hin hu hf
  have hin' : ¬((p.in_use - 1 : Int) < 0) := by omega
  unfold ProxyList.failOp
  rw [if_neg hin']
  dsimp only
  have hwp := withHistory_preserves cfg
    { p with fail_at := some now, fail := p.fail + 1, in_use := p.in_use - 1 }
    .FAIL reason ident now
  set q := withHistory cfg
    { p with fail_at := some now, fail := p.fail + 1, in_use := p.in_use - 1 }
    .FAIL reason ident now with hq
  have hqaddr : q.addr = p.addr := hwp.1
  have hqfail : q.fail = p.fail + 1 := hwp.2.1
  have hqfat : q.fail_at = some now := hwp.2.2.1
  have hqiu : q.in_use = p.in_use - 1 := hwp.2.2.2.1
  have hqrt : q.rest_till = p.rest_till := hwp.2.2.2.2.2.1
  rw [hqaddr, hqfail]
  by_cases hact : (assocFind p.addr st.active_proxies).isSome = true
  · rw [if_pos hact]
    by_cases hmax : cfg.max_fail ≤ p.fail + 1
    · rw [if_pos hmax]
      unfold ProxyList.blacklistOp ProxyList.maybe_update
      dsimp only [ProxyListState.alias]
      rw [hu]
      have hcond : ¬((some u : Option Int) = none ∨
          now - (some u : Option Int).getD 0 > cfg.update_timeout) := by
        simp only [Option.getD_some, reduceCtorEq, false_or, not_lt]
        omega
      rw [if_neg hcond]
      refine ⟨_, rfl, hqfat, hqfail, hqiu, fun _ => ⟨fun _ => ⟨rfl, ?_, ?_⟩, fun hlt _ _ => ?_⟩⟩
      · rw [hqaddr]
        exact assocFind_assocErase_self _ _
      · rw [hqaddr]
        exact assocFind_assocSet_self _ _ _
      · omega
    · rw [if_neg hmax]
      by_cases ht : t.getD cfg.fail_timeout ≠ 0
      · rw [if_pos ht]
        have hsr := set_rest_till_preserves q (now + t.getD cfg.fail_timeout)
        refine ⟨_, rfl, by rw [hsr.2.2.1, hqfat], by rw [hsr.2.1, hqfail],
          by rw [hsr.2.2.2.1, hqiu],
          fun _ => ⟨fun habs => absurd habs hmax, fun _ _ hrest => ?_⟩⟩
        exact set_rest_till_sets q _ (fun r hr => hrest r (by rw [← hqrt]; exact hr))
      · rw [if_neg ht]
        exact ⟨_, rfl, hqfat, hqfail, hqiu,
          fun _ => ⟨fun habs => absurd habs hmax, fun _ ht' _ => absurd ht' ht⟩⟩
  · rw [if_neg hact]
    exact ⟨_, rfl, hqfat, hqfail, hqiu, fun hact' => absurd hact' hact⟩

/-- A pool whose active map registers `maxFailProxy`. -/
def failingActiveState : ProxyListState :=
  { emptyPoolState with active_proxies := [("1.1.1.1:80", maxFailProxy)] }

/-- Witness for C4: a registered proxy reaching `max_fail` on this call. -/
theorem C4_witness :
    ∃ pr : Proxy × ProxyListState,
      ProxyList.failOp {} failingActiveState maxFailProxy none none none 100 = some pr ∧
      pr.1.fail_at = some 100 ∧ pr.1.fail = maxFailProxy.fail + 1 ∧
      pr.1.in_use = maxFailProxy.in_use - 1 ∧
      ((assocFind maxFailProxy.addr failingActiveState.active_proxies).isSome = true →
        (({} : ProxyListConfig).max_fail ≤ maxFailProxy.fail + 1 →
          pr.1.blacklist = true ∧
          assocFind maxFailProxy.addr pr.2.active_proxies = none ∧
          assocFind maxFailProxy.addr pr.2.blacklist_proxies = some pr.1) ∧
        (maxFailProxy.fail + 1 < ({} : ProxyListConfig).max_fail →
          (none : Option Int).getD ({} : ProxyListConfig).fail_timeout ≠ 0 →
          (∀ r, maxFailProxy.rest_till = some r →
            r < 100 + (none : Option Int).getD ({} : ProxyListConfig).fail_timeout) →
          pr.1.rest_till =
            some (100 + (none : Option Int).getD ({} : ProxyListConfig).fail_timeout))) :=
  C4_fail_semantics {} failingActiveState maxFailProxy none none none 100 0
    (by decide) rfl (by decide)


/-! ## C1 — every selected proxy comes from the ready snapshot -/

/-- **C1.**  Whenever a pass of `ProxyList.get` returns a proxy, that
    proxy is (up to the `in_use` increment applied on return) an entry of
    the active map — hence not blacklisted — whose `in_use` was strictly
    below `max_simultaneous` at selection time, whose addr is not in the
    `exclude` list, whose `rest_till` is absent or strictly earlier than
    `now`, and which passes the countries / countries_exclude / min_speed
    filters; i.e. it comes from the ready set of `get_ready_proxies`.
    The hypothesis states the pool's keying invariant (every active entry
    is stored under its record's addr). -/
theorem C1_get_returns_ready :
    ∀ (cfg : ProxyListConfig) (st : ProxyListState) (strat : Strategy)
      (persist : Option String) (wait : WaitParam) (ps : GetParams) (now : Int)
      (p : Proxy) (st' : ProxyListState),
      (∀ aq ∈ st.active_proxies, aq.2.addr = aq.1) →
      ProxyList.get cfg st strat persist wait ps now = .got p st' →
      ∃ p₀ : Proxy,
        (p₀.addr, p₀) ∈ st.active_proxies ∧
        p = { p₀ with in_use := p₀.in_use + 1 } ∧
        p₀.in_use < cfg.max_simultaneous ∧
        p₀.addr ∉ ps.exclude ∧
        (p₀.rest_till = none ∨ ∃ r, p₀.rest_till = some r ∧ r < now) ∧
        countriesOk ps.countries p₀ = true ∧
        countriesExcludeOk ps.countries_exclude p₀ = true ∧
        minSpeedCheck ps.min_speed p₀.speed = some true := by
  intro cfg st strat persist wait ps now p p' hcons hget
  unfold ProxyList.get at hget
  split at hget
  · exact GetOutcome.noConfusion hget
  · rcases hmu : ProxyList.maybe_update cfg st now with _ | st1 <;> rw [hmu] at hget
    · exact GetOutcome.noConfusion hget
    · have hact1 : st1.active_proxies = st.active_proxies := (maybe_update_active hmu).1
      dsimp only at hget
      rcases hready : get_ready_proxies cfg ps now st1.active_proxies with _ | ready <;>
        rw [hready] at hget
      · exact GetOutcome.noConfusion hget
      · dsimp only at hget
        split at hget
        · -- ready non-empty
          have main : ∀ q : Proxy, (∃ a, (a, q) ∈ ready) →
              ∃ p₀ : Proxy,
                (p₀.addr, p₀) ∈ st.active_proxies ∧
                ({ q with in_use := q.in_use + 1 } : Proxy) = { p₀ with in_use := p₀.in_use + 1 } ∧
                p₀.in_use < cfg.max_simultaneous ∧
                p₀.addr ∉ ps.exclude ∧
                (p₀.rest_till = none ∨ ∃ r, p₀.rest_till = some r ∧ r < now) ∧
                countriesOk ps.countries p₀ = true ∧
                countriesExcludeOk ps.countries_exclude p₀ = true ∧
                minSpeedCheck ps.min_speed p₀.speed = some true := by
            rintro q ⟨a, hmem⟩
            rcases mem_get_ready_proxies hready _ hmem with ⟨hmemact, hrc⟩
            rw [hact1] at hmemact
            have haddr : q.addr = a := hcons _ hmemact
            rcases readyCheck_true_iff.mp hrc with ⟨h1, h2, h3, h4, h5, h6⟩
            refine ⟨q, ?_, rfl, h1, ?_, restOk_iff.mp h3, h4, h5, h6⟩
            · rw [haddr]; exact hmemact
            · rw [haddr]; exact h2
          rcases hp : persist.bind (fun a => assocFind a ready) with _ | pP <;>
            rw [hp] at hget <;> try dsimp only at hget
          · rcases hs : applyStrategy strat ready with _ | pS <;> rw [hs] at hget <;>
              try dsimp only at hget
            · exact GetOutcome.noConfusion hget
            · injection hget with hpe hste
              rcases List.mem_map.mp (applyStrategy_mem hs) with ⟨aq, haq, hsnd⟩
              rw [← hpe]
              exact main pS ⟨aq.1, by rw [← hsnd]; exact haq⟩
          · injection hget with hpe hste
            rcases Option.bind_eq_some.mp hp with ⟨a, hpa, hfind⟩
            rw [← hpe]
            exact main pP ⟨a, assocFind_mem hfind⟩
        · split at hget <;> exact GetOutcome.noConfusion hget

/-- A two-proxy pool used to exercise selection. -/
def selectionState : ProxyListState :=
  { active_proxies := [("1.1.1.1:80", fastLoadedProxy), ("2.2.2.2:80", slowIdleProxy)],
    blacklist_proxies := [], proxy_pool_manager := [], updated_at := some 0,
    hasFetcher := false, fetcherReady := true }

/-- The state after the C1 witness selection: the chosen entry's `in_use`
    is bumped in place. -/
def selectionStateAfter : ProxyListState :=
  { selectionState with
      active_proxies := [("1.1.1.1:80", { fastLoadedProxy with in_use := 2 }),
                         ("2.2.2.2:80", slowIdleProxy)] }

/-- Witness for C1: the FASTEST selection over `selectionState` at
    `now = 100` returns `fastLoadedProxy` with `in_use` bumped to 2. -/
theorem C1_witness :
    ∃ p₀ : Proxy,
      (p₀.addr, p₀) ∈ selectionState.active_proxies ∧
      ({ fastLoadedProxy with in_use := 2 } : Proxy) = { p₀ with in_use := p₀.in_use + 1 } ∧
      p₀.in_use < ({} : ProxyListConfig).max_simultaneous ∧
      p₀.addr ∉ ({} : GetParams).exclude ∧
      (p₀.rest_till = none ∨ ∃ r, p₀.rest_till = some r ∧ r < 100) ∧
      countriesOk ({} : GetParams).countries p₀ = true ∧
      countriesExcludeOk ({} : GetParams).countries_exclude p₀ = true ∧
      minSpeedCheck ({} : GetParams).min_speed p₀.speed = some true :=
  C1_get_returns_ready {} selectionState .FASTEST none .wTrue {} 100
    { fastLoadedProxy with in_use := 2 } selectionStateAfter (by decide) (by decide)


end ProxyTools
